import Mathlib

/-!
Shallow embedding of `main.go` from the `prgpt` repository: a command-line
utility that fetches the diff of a pull request through the external `gh`
command and asks the OpenAI chat-completion endpoint for a review verdict.

External collaborators are modelled as injectable oracles, matching the
treatment in the specification: the external `gh` process is a function from
a command to either its standard output or a process error; the HTTP round
trip together with reading and JSON-decoding the response body is a function
from the built request to either the decoded response structure or an error
telling which of the three stages (sending, reading, unmarshaling) failed;
the user lookup, file open and TOML decode inside `loadConfig` are three
oracles of a `ConfigEnv`.

Observable external effects (process spawns and HTTP calls) are recorded in
an event trace, so that claims of the form "no process is spawned" and "no
network call is attempted" become statements about the trace of a run.
-/

namespace Prgpt

/-- Embedding of the Go standard-library call `strings.Split(s, "/")` for a
one-character separator: split the character data around every occurrence of
the separator. Like the Go function, it returns `[""]` on the empty string
and keeps empty segments. Written by structural recursion so that it
evaluates inside the kernel. -/
def splitCharsAux (sep : Char) : List Char → List Char → List (List Char)
  | [], acc => [acc.reverse]
  | c :: cs, acc =>
    if c = sep then acc.reverse :: splitCharsAux sep cs []
    else splitCharsAux sep cs (c :: acc)

/-- `goSplit s sep` is `strings.Split s (String.singleton sep)` from Go. -/
def goSplit (s : String) (sep : Char) : List String :=
  (splitCharsAux sep s.data []).map (fun l => ⟨l⟩)

/-- Constant `openAICompletionURL` of `main.go` line 19. -/
def openAICompletionURL : String := "https://api.openai.com/v1/chat/completions"

/-- Constant `openAIModel` of `main.go` line 20. -/
def openAIModel : String := "gpt-3.5-turbo-1106"

/-- Constant `CONFIG_FOLDER` of `main.go` line 21. -/
def CONFIG_FOLDER : String := "/.config/openai/"

/-- Constant `FILENAME` of `main.go` line 22. -/
def FILENAME : String := "config.toml"

/-- JSON values, used as the image of the serialization performed by
`json.Marshal` on the request struct. Numbers are rationals, which represent
the one numeric field of the request (the temperature 0.5) exactly. -/
inductive Json where
  | str : String → Json
  | num : Rat → Json
  | arr : List Json → Json
  | obj : List (String × Json) → Json

/-- Struct `OpenAIRequestMessages` of `main.go` lines 31 to 34. -/
structure OpenAIRequestMessages where
  role : String
  content : String

/-- Struct `OpenAIRequest` of `main.go` lines 25 to 29. -/
structure OpenAIRequest where
  model : String
  messages : List OpenAIRequestMessages
  temperature : Rat

/-- Serialization of a message, with the JSON keys of the Go field tags in
declaration order. -/
def OpenAIRequestMessages.toJson (m : OpenAIRequestMessages) : Json :=
  Json.obj [("role", Json.str m.role), ("content", Json.str m.content)]

/-- Serialization of the request, with the JSON keys of the Go field tags in
declaration order, as produced by `json.Marshal` on `OpenAIRequest`. -/
def OpenAIRequest.toJson (r : OpenAIRequest) : Json :=
  Json.obj [("model", Json.str r.model),
    ("messages", Json.arr (r.messages.map OpenAIRequestMessages.toJson)),
    ("temperature", Json.num r.temperature)]

/-- The message of one choice, from the anonymous struct inside
`OpenAIReponse.Choices` of `main.go` lines 47 to 50. -/
structure OpenAIReponseChoiceMessage where
  role : String
  content : String

/-- One choice of the response, `main.go` lines 46 to 53. -/
structure OpenAIReponseChoice where
  message : OpenAIReponseChoiceMessage
  finishReason : String
  index : Int

/-- The usage counters of the response, `main.go` lines 41 to 45. -/
structure OpenAIReponseUsage where
  promptTokens : Int
  completionTokens : Int
  totalTokens : Int

/-- Struct `OpenAIReponse` of `main.go` lines 36 to 54 (the spelling of the
name follows the source). -/
structure OpenAIReponse where
  id : String
  object : String
  created : Int
  model : String
  usage : OpenAIReponseUsage
  choices : List OpenAIReponseChoice

/-- Inner struct of `FileConfig.ApiKey`, `main.go` lines 57 to 59. -/
structure FileConfigApiKey where
  key : String

/-- Inner struct of `FileConfig.Prompt`, `main.go` lines 60 to 62. -/
structure FileConfigPrompt where
  custom : String

/-- Struct `FileConfig` of `main.go` lines 56 to 63. -/
structure FileConfig where
  apiKey : FileConfigApiKey
  prompt : FileConfigPrompt

/-- The zero value of `FileConfig`, which a named Go return variable holds
when it is never assigned: both strings empty. -/
def FileConfig.zero : FileConfig := ⟨⟨""⟩, ⟨""⟩⟩

/-- An external command: executable name and argument list, as passed to
`exec.Command`. -/
structure Cmd where
  name : String
  args : List String

/-- An outbound HTTP request as built by `generateFinalConsideration`:
method, URL, serialized JSON body, and headers in the order they are set. -/
structure HttpRequest where
  method : String
  url : String
  body : Json
  headers : List (String × String)

/-- Observable external effects of a run: spawning a process, or performing
an HTTP call (the call event is recorded whether the call succeeds or
fails, since the attempt itself is the effect). -/
inductive Event where
  | procCall : Cmd → Event
  | httpCall : HttpRequest → Event

/-- Whether an event is an HTTP call. -/
def Event.isHttpCall : Event → Bool
  | .httpCall _ => true
  | .procCall _ => false

/-- Whether an event is a process spawn. -/
def Event.isProcCall : Event → Bool
  | .procCall _ => true
  | .httpCall _ => false

/-- The error kinds of the program, one constructor per `fmt.Errorf` site
(the taxonomy of the specification). The `String` payloads carry the
rendered text of a wrapped underlying error. -/
inductive PrgptError where
  | ConfigError : String → PrgptError
  | InvalidURLError : PrgptError
  | DiffFetchError : String → PrgptError
  | SerializationError : String → PrgptError
  | RequestError : String → PrgptError
  | ResponseReadError : String → PrgptError
  | DeserializationError : String → PrgptError
  | EmptyResponseError : PrgptError

/-- The message text of each error, exactly as `fmt.Errorf` formats it in
`main.go` (for `ConfigError` the payload already is the whole message). -/
def PrgptError.toMessage : PrgptError → String
  | .ConfigError m => m
  | .InvalidURLError => "invalid PR URL"
  | .DiffFetchError m => "error running gh pr diff: " ++ m
  | .SerializationError m => "error marshaling OpenAI request: " ++ m
  | .RequestError m => "error making request to OpenAI API: " ++ m
  | .ResponseReadError m => "error reading response from OpenAI API: " ++ m
  | .DeserializationError m => "error unmarshaling OpenAI response: " ++ m
  | .EmptyResponseError => "no response received from OpenAI API"

/-- The command built at `main.go` line 102:
`exec.Command("gh", "pr", "diff", "-R", org+"/"+repo, prNumber)`. -/
def ghPrDiffCmd (org repo prNumber : String) : Cmd :=
  ⟨"gh", ["pr", "diff", "-R", org ++ "/" ++ repo, prNumber]⟩

/-- The command `getPRDiff` invokes for a URL with enough segments: it is
built from segments 3, 4 and 6 of the URL split on the slash
(`main.go` lines 98 to 102). -/
def invokedCmd (prURL : String) : Cmd :=
  let parts := goSplit prURL '/'
  ghPrDiffCmd (parts.getD 3 "") (parts.getD 4 "") (parts.getD 6 "")

/-- Function `getPRDiff` of `main.go` lines 92 to 109, with the external
process as the oracle `runCmd`. The URL is split on the slash; fewer than 7
segments is rejected with `InvalidURLError` and no event; otherwise the
command built from segments 3, 4 and 6 is spawned (recorded as a `procCall`
event) and a process error is wrapped in `DiffFetchError`. -/
def getPRDiff (runCmd : Cmd → Except String String) (prURL : String) :
    Except PrgptError String × List Event :=
  if (goSplit prURL '/').length < 7 then
    (Except.error PrgptError.InvalidURLError, [])
  else
    (match runCmd (invokedCmd prURL) with
      | Except.error e => Except.error (PrgptError.DiffFetchError e)
      | Except.ok output => Except.ok output,
     [Event.procCall (invokedCmd prURL)])

/-- The fixed instruction text appended to the diff at `main.go` line 112,
verbatim (apostrophes written as the escape \x27). -/
def instructionText : String :=
  "\nPlease provide a final consideration for this PR in Markdown format, focusing only on potential issues and ensuring the application\x27s stability. Include an \x27Approved: true/false\x27 statement at the end for easy decision-making.Thank you!"

/-- Which stage of the opaque network exchange failed: the POST itself
(`client.Do`), reading the body (`io.ReadAll`), or decoding the body
(`json.Unmarshal`). -/
inductive NetErr where
  | requestErr : String → NetErr
  | readErr : String → NetErr
  | unmarshalErr : String → NetErr

/-- The request value built at `main.go` lines 119 to 123: the fixed model,
temperature 0.5, and a one-element message list whose single message has
role `user` and the diff followed by the fixed instruction as content. -/
def buildOpenAIRequest (prDiff : String) : OpenAIRequest :=
  { model := openAIModel
    messages := [{ role := "user", content := prDiff ++ instructionText }]
    temperature := 0.5 }

/-- The HTTP request built at `main.go` lines 129 to 134: POST to the
completion URL, the serialized request as body, and the two headers in the
order they are set. -/
def buildHttpRequest (prDiff apiKey : String) : HttpRequest :=
  { method := "POST"
    url := openAICompletionURL
    body := (buildOpenAIRequest prDiff).toJson
    headers := [("Content-Type", "application/json"),
                ("Authorization", "Bearer " ++ apiKey)] }

/-- Function `generateFinalConsideration` of `main.go` lines 111 to 158,
with the network exchange as the oracle `net`. The HTTP call is recorded as
an event in every case; a failing exchange is mapped to `RequestError`,
`ResponseReadError` or `DeserializationError` by stage; a decoded response
with an empty choice list fails with `EmptyResponseError`; otherwise the
content of the first choice is returned verbatim. -/
def generateFinalConsideration (net : HttpRequest → Except NetErr OpenAIReponse)
    (prDiff apiKey : String) : Except PrgptError String × List Event :=
  (match net (buildHttpRequest prDiff apiKey) with
    | Except.error (.requestErr m) => Except.error (PrgptError.RequestError m)
    | Except.error (.readErr m) => Except.error (PrgptError.ResponseReadError m)
    | Except.error (.unmarshalErr m) => Except.error (PrgptError.DeserializationError m)
    | Except.ok resp =>
      match resp.choices with
      | [] => Except.error PrgptError.EmptyResponseError
      | choice :: _ => Except.ok choice.message.content,
   [Event.httpCall (buildHttpRequest prDiff apiKey)])

/-- The three opaque collaborators of `loadConfig`: the current-user lookup
(yielding the home directory), the file open (yielding the file contents for
a path), and the TOML decode of those contents. -/
structure ConfigEnv where
  currentUserHome : Except String String
  openFile : String → Except String String
  tomlDecode : String → Except String FileConfig

/-- Function `loadConfig` of `main.go` lines 160 to 178: like the Go
function it returns the pair of the named result and the error. On every
failure path the named result is its zero value, and the error message is
the one formatted at the corresponding `fmt.Errorf` site. -/
def loadConfig (env : ConfigEnv) : FileConfig × Option PrgptError :=
  match env.currentUserHome with
  | Except.error _ =>
    (FileConfig.zero, some (PrgptError.ConfigError "Error getting current user"))
  | Except.ok homeDir =>
    match env.openFile (homeDir ++ CONFIG_FOLDER ++ FILENAME) with
    | Except.error e =>
      (FileConfig.zero, some (PrgptError.ConfigError ("Error opening TOML file: " ++ e)))
    | Except.ok contents =>
      match env.tomlDecode contents with
      | Except.error e =>
        (FileConfig.zero, some (PrgptError.ConfigError ("Error parsing TOML file: " ++ e)))
      | Except.ok cfg => (cfg, none)

/-- The inputs of one run: the value of the `-pr` flag after `flag.Parse`
(its default `""` covers both an absent flag and an explicitly empty one),
and the three oracles for configuration, process and network. -/
structure World where
  prURL : String
  configEnv : ConfigEnv
  runCmd : Cmd → Except String String
  net : HttpRequest → Except NetErr OpenAIReponse

/-- The observable outcome of a run: everything written to standard output
(each `fmt.Println` appends a newline), the process exit code, and the trace
of external effects. -/
structure RunResult where
  stdout : String
  exitCode : Nat
  events : List Event

/-- The usage message printed at `main.go` line 73. -/
def usageLine : String := "Usage: pr_review_cli -pr <PR_URL>"

/-- Lines 77 to 89 of `main`: fetch the diff, then generate the review with
the API key of the given configuration, printing either a context-prefixed
error line or the review text. `fmt.Println` with two arguments joins them
with one space. The exit code is 0 on every path because `main` returns
normally everywhere. -/
def pipelineRun (w : World) (cfg : FileConfig) : RunResult :=
  match (getPRDiff w.runCmd w.prURL).1 with
  | Except.error e =>
    { stdout := "Error fetching PR diff: " ++ e.toMessage ++ "\n"
      exitCode := 0
      events := (getPRDiff w.runCmd w.prURL).2 }
  | Except.ok prDiff =>
    match (generateFinalConsideration w.net prDiff cfg.apiKey.key).1 with
    | Except.error e =>
      { stdout := "Error generating final consideration: " ++ e.toMessage ++ "\n"
        exitCode := 0
        events := (getPRDiff w.runCmd w.prURL).2 ++
          (generateFinalConsideration w.net prDiff cfg.apiKey.key).2 }
    | Except.ok finalConsideration =>
      { stdout := finalConsideration ++ "\n"
        exitCode := 0
        events := (getPRDiff w.runCmd w.prURL).2 ++
          (generateFinalConsideration w.net prDiff cfg.apiKey.key).2 }

/-- Function `main` of `main.go` lines 65 to 90. The configuration is loaded
first and only its result component is ever used: the error component of
`loadConfig` is discarded without a check, exactly as the Go variable `err`
assigned at line 70 is overwritten at line 77 without being read. An empty
`-pr` value prints the usage line and ends the run with no events. -/
def mainRun (w : World) : RunResult :=
  if w.prURL = "" then
    { stdout := usageLine ++ "\n", exitCode := 0, events := [] }
  else
    pipelineRun w ((loadConfig w.configEnv).1)

/-- A configuration environment in which every stage succeeds. -/
def cfgEnvOK : ConfigEnv :=
  { currentUserHome := Except.ok "/home/u"
    openFile := fun _ => Except.ok "[apikey]\nkey = \"sk-key\""
    tomlDecode := fun _ => Except.ok ⟨⟨"sk-key"⟩, ⟨""⟩⟩ }

/-- A configuration environment in which the current-user lookup fails. -/
def cfgEnvNoUser : ConfigEnv :=
  { currentUserHome := Except.error "user lookup failed"
    openFile := fun _ => Except.ok ""
    tomlDecode := fun _ => Except.ok FileConfig.zero }

/-- A decoded response with exactly one choice whose content is the review
text used by the printing claims. -/
def respLGTM : OpenAIReponse :=
  { id := "chatcmpl-0"
    object := "chat.completion"
    created := 0
    model := openAIModel
    usage := ⟨1, 1, 2⟩
    choices := [{ message := ⟨"assistant", "LGTM\nApproved: true"⟩
                  finishReason := "stop"
                  index := 0 }] }

/-- A decoded response whose choice list is empty. -/
def respEmpty : OpenAIReponse :=
  { id := "chatcmpl-1"
    object := "chat.completion"
    created := 0
    model := openAIModel
    usage := ⟨0, 0, 0⟩
    choices := [] }

/-- Concrete world for the single-choice printing claim: the URL of the
specification, a succeeding configuration, a diff command answering a fixed
diff, and a network answering `respLGTM`. -/
def worldC4 : World :=
  { prURL := "https://github.com/orgX/repoY/pull/123"
    configEnv := cfgEnvOK
    runCmd := fun _ => Except.ok "DIFF"
    net := fun _ => Except.ok respLGTM }

/-- Concrete world for the empty-choices claim: as `worldC4` but the network
answers `respEmpty`. -/
def worldC5 : World :=
  { prURL := "https://github.com/orgX/repoY/pull/123"
    configEnv := cfgEnvOK
    runCmd := fun _ => Except.ok "DIFF"
    net := fun _ => Except.ok respEmpty }

/-- Concrete world for the failing-command claim: the diff command fails
with the rendered text of a non-zero exit. -/
def worldC6 : World :=
  { prURL := "https://github.com/orgX/repoY/pull/123"
    configEnv := cfgEnvOK
    runCmd := fun _ => Except.error "exit status 1"
    net := fun _ => Except.ok respLGTM }

/-- Concrete world for the ignored-config claim: configuration loading fails
at the user lookup, yet the rest of the pipeline is able to run. -/
def worldC7 : World :=
  { prURL := "https://github.com/orgX/repoY/pull/123"
    configEnv := cfgEnvNoUser
    runCmd := fun _ => Except.ok "DIFF"
    net := fun _ => Except.ok respLGTM }

/-- Concrete world refuting the surfaced-ConfigError claim: configuration
loading fails, everything downstream succeeds. -/
def worldC8 : World :=
  { prURL := "https://github.com/orgX/repoY/pull/123"
    configEnv := cfgEnvNoUser
    runCmd := fun _ => Except.ok "DIFF"
    net := fun _ => Except.ok respLGTM }

/-- Concrete world for the amended error-reporting claim: a URL with too few
segments. -/
def worldC8b : World :=
  { prURL := "short"
    configEnv := cfgEnvOK
    runCmd := fun _ => Except.ok "DIFF"
    net := fun _ => Except.ok respLGTM }

/-- Concrete world for the usage claim: no `-pr` value. -/
def worldC9 : World :=
  { prURL := ""
    configEnv := cfgEnvOK
    runCmd := fun _ => Except.ok "DIFF"
    net := fun _ => Except.ok respLGTM }

/-- A URL with empty segments that agrees with the specification URL on
segments 3, 4 and 6 only. -/
def urlSpec : String := "https://github.com/orgX/repoY/pull/123"

/-- A second URL for the no-extra-validation claim. -/
def urlOdd : String := "a//b/orgX/repoY//123/extra"

end Prgpt

namespace Prgpt

theorem url_ne_empty_of_seven {url : String} (h : 7 ≤ (goSplit url '/').length) :
    url ≠ "" := by
  intro he
  rw [he] at h
  exact absurd h (by decide)

theorem getPRDiff_of_ge (runCmd : Cmd → Except String String) (url : String)
    (h : 7 ≤ (goSplit url '/').length) :
    getPRDiff runCmd url =
      (match runCmd (invokedCmd url) with
        | Except.error e => Except.error (PrgptError.DiffFetchError e)
        | Except.ok output => Except.ok output,
       [Event.procCall (invokedCmd url)]) := by
  unfold getPRDiff
  rw [if_neg (by omega)]

/-- C1: for every URL splitting on the slash into at least 7 segments, the
diff fetcher spawns exactly the command built from segment 3 (organization),
segment 4 (repository) and segment 6 (PR number). -/
theorem c1_segment_extraction (runCmd : Cmd → Except String String) (url : String)
    (h : 7 ≤ (goSplit url '/').length) :
    (getPRDiff runCmd url).2 =
      [Event.procCall (ghPrDiffCmd ((goSplit url '/').getD 3 "")
        ((goSplit url '/').getD 4 "") ((goSplit url '/').getD 6 ""))] := by
  rw [getPRDiff_of_ge runCmd url h]
  rfl

/-- C1 witness: on the URL of the specification the derived invocation
targets organization orgX, repository repoY and PR number 123. -/
theorem c1_witness :
    (getPRDiff (fun _ => Except.ok "") "https://github.com/orgX/repoY/pull/123").2 =
      [Event.procCall (Cmd.mk "gh" ["pr", "diff", "-R", "orgX/repoY", "123"])] := by
  rw [c1_segment_extraction (fun _ => Except.ok "") "https://github.com/orgX/repoY/pull/123" (by decide)]
  rfl

/-- C2: a URL with fewer than 7 slash-delimited segments makes the diff
fetcher fail with InvalidURLError, and the whole run records no external
event at all: no process is spawned and no network call is made. -/
theorem c2_short_url_rejected (w : World)
    (h : (goSplit w.prURL '/').length < 7) :
    getPRDiff w.runCmd w.prURL = (Except.error PrgptError.InvalidURLError, []) ∧
    (mainRun w).events = [] := by
  have hg : getPRDiff w.runCmd w.prURL = (Except.error PrgptError.InvalidURLError, []) := by
    unfold getPRDiff
    rw [if_pos h]
  refine ⟨hg, ?_⟩
  unfold mainRun
  by_cases hu : w.prURL = ""
  · rw [if_pos hu]
  · rw [if_neg hu]
    unfold pipelineRun
    rw [hg]

/-- C2 witness at the three-segment URL https://github.com. -/
theorem c2_witness :
    getPRDiff (fun _ => Except.ok "") "https://github.com" =
      (Except.error PrgptError.InvalidURLError, []) ∧
    (mainRun { prURL := "https://github.com"
               configEnv := cfgEnvOK
               runCmd := fun _ => Except.ok ""
               net := fun _ => Except.ok respLGTM }).events = [] :=
  c2_short_url_rejected
    { prURL := "https://github.com"
      configEnv := cfgEnvOK
      runCmd := fun _ => Except.ok ""
      net := fun _ => Except.ok respLGTM } (by decide)

/-- C9: with an empty -pr value the run prints exactly the usage line
followed by a newline, exits with code 0, and records no external event. -/
theorem c9_usage_early_exit (w : World) (h : w.prURL = "") :
    mainRun w =
      { stdout := "Usage: pr_review_cli -pr <PR_URL>\n", exitCode := 0, events := [] } := by
  unfold mainRun
  rw [if_pos h]
  rfl

/-- C9 witness on a concrete world without a -pr value. -/
theorem c9_witness :
    mainRun worldC9 =
      { stdout := "Usage: pr_review_cli -pr <PR_URL>\n", exitCode := 0, events := [] } :=
  c9_usage_early_exit worldC9 rfl

/-- C10: beyond the segment count the fetcher validates nothing: any two
URLs with at least 7 segments that agree on segments 3, 4 and 6 give the
same command and the same fetch outcome, whatever the other segments are. -/
theorem c10_no_extra_validation (runCmd : Cmd → Except String String) (u1 u2 : String)
    (h1 : 7 ≤ (goSplit u1 '/').length) (h2 : 7 ≤ (goSplit u2 '/').length)
    (he3 : (goSplit u1 '/').getD 3 "" = (goSplit u2 '/').getD 3 "")
    (he4 : (goSplit u1 '/').getD 4 "" = (goSplit u2 '/').getD 4 "")
    (he6 : (goSplit u1 '/').getD 6 "" = (goSplit u2 '/').getD 6 "") :
    invokedCmd u1 = invokedCmd u2 ∧
    getPRDiff runCmd u1 = getPRDiff runCmd u2 := by
  have hc : invokedCmd u1 = invokedCmd u2 := by
    simp only [invokedCmd]
    rw [he3, he4, he6]
  refine ⟨hc, ?_⟩
  rw [getPRDiff_of_ge runCmd u1 h1, getPRDiff_of_ge runCmd u2 h2, hc]

/-- C10 witness: the specification URL and an unrelated URL with empty
segments that agrees with it only at indices 3, 4 and 6 are treated
identically. -/
theorem c10_witness :
    invokedCmd urlSpec = invokedCmd urlOdd ∧
    getPRDiff (fun _ => Except.ok "") urlSpec = getPRDiff (fun _ => Except.ok "") urlOdd :=
  c10_no_extra_validation (fun _ => Except.ok "") urlSpec urlOdd
    (by decide) (by decide) (by decide) (by decide) (by decide)

/-- C3: for every diff text D and API key K the built request has as body a
JSON object whose model is the fixed constant, whose temperature is exactly
0.5, and whose message list has exactly one element of role user whose
content is D followed verbatim by the fixed instruction text; the headers
carry the key. -/
theorem c3_request_shape (D K : String) :
    (buildHttpRequest D K).body =
      Json.obj [("model", Json.str openAIModel),
        ("messages", Json.arr [Json.obj [("role", Json.str "user"),
          ("content", Json.str (D ++ instructionText))]]),
        ("temperature", Json.num (1/2))] ∧
    (buildHttpRequest D K).headers =
      [("Content-Type", "application/json"), ("Authorization", "Bearer " ++ K)] := by
  constructor
  · unfold buildHttpRequest buildOpenAIRequest OpenAIRequest.toJson OpenAIRequestMessages.toJson
    norm_num
  · rfl

theorem generateFC_fst (net : HttpRequest → Except NetErr OpenAIReponse)
    (prDiff apiKey : String) (resp : OpenAIReponse)
    (hnet : net (buildHttpRequest prDiff apiKey) = Except.ok resp) :
    (generateFinalConsideration net prDiff apiKey).1 =
      (match resp.choices with
        | [] => Except.error PrgptError.EmptyResponseError
        | choice :: _ => Except.ok choice.message.content) := by
  unfold generateFinalConsideration
  rw [hnet]

theorem pipelineRun_ok_diff (w : World) (cfg : FileConfig) (d : String)
    (hdiff : (getPRDiff w.runCmd w.prURL).1 = Except.ok d) :
    pipelineRun w cfg =
      (match (generateFinalConsideration w.net d cfg.apiKey.key).1 with
        | Except.error e =>
          { stdout := "Error generating final consideration: " ++ e.toMessage ++ "\n"
            exitCode := 0
            events := (getPRDiff w.runCmd w.prURL).2 ++
              (generateFinalConsideration w.net d cfg.apiKey.key).2 }
        | Except.ok finalConsideration =>
          { stdout := finalConsideration ++ "\n"
            exitCode := 0
            events := (getPRDiff w.runCmd w.prURL).2 ++
              (generateFinalConsideration w.net d cfg.apiKey.key).2 }) := by
  unfold pipelineRun
  rw [hdiff]

/-- C4: when the decoded response has exactly one choice whose message
content is the string LGTM-newline-Approved-true, the generator returns
that content verbatim and the run prints exactly that string followed by
one newline. -/
theorem c4_single_choice_printed (w : World) (d : String) (resp : OpenAIReponse)
    (c : OpenAIReponseChoice)
    (hurl : w.prURL ≠ "")
    (hdiff : (getPRDiff w.runCmd w.prURL).1 = Except.ok d)
    (hnet : w.net (buildHttpRequest d ((loadConfig w.configEnv).1.apiKey.key)) = Except.ok resp)
    (hch : resp.choices = [c])
    (hc : c.message.content = "LGTM\nApproved: true") :
    (generateFinalConsideration w.net d ((loadConfig w.configEnv).1.apiKey.key)).1 =
      Except.ok "LGTM\nApproved: true" ∧
    (mainRun w).stdout = "LGTM\nApproved: true\n" := by
  have hg : (generateFinalConsideration w.net d ((loadConfig w.configEnv).1.apiKey.key)).1 =
      Except.ok "LGTM\nApproved: true" := by
    rw [generateFC_fst w.net d ((loadConfig w.configEnv).1.apiKey.key) resp hnet, hch]
    show Except.ok c.message.content = Except.ok "LGTM\nApproved: true"
    rw [hc]
  refine ⟨hg, ?_⟩
  unfold mainRun
  rw [if_neg hurl, pipelineRun_ok_diff w ((loadConfig w.configEnv).1) d hdiff, hg]
  rfl

/-- C4 witness on a concrete world whose network answers a one-choice
response with that content. -/
theorem c4_witness : (mainRun worldC4).stdout = "LGTM\nApproved: true\n" :=
  (c4_single_choice_printed worldC4 "DIFF" respLGTM
    { message := ⟨"assistant", "LGTM\nApproved: true"⟩, finishReason := "stop", index := 0 }
    (by decide) rfl rfl rfl rfl).2

/-- C5: when the decoded response has an empty choice list the generator
fails with EmptyResponseError and the run prints only the context-prefixed
error line, never any review content. -/
theorem c5_empty_choices (w : World) (d : String) (resp : OpenAIReponse)
    (hurl : w.prURL ≠ "")
    (hdiff : (getPRDiff w.runCmd w.prURL).1 = Except.ok d)
    (hnet : w.net (buildHttpRequest d ((loadConfig w.configEnv).1.apiKey.key)) = Except.ok resp)
    (hch : resp.choices = []) :
    (generateFinalConsideration w.net d ((loadConfig w.configEnv).1.apiKey.key)).1 =
      Except.error PrgptError.EmptyResponseError ∧
    (mainRun w).stdout = "Error generating final consideration: no response received from OpenAI API\n" := by
  have hg : (generateFinalConsideration w.net d ((loadConfig w.configEnv).1.apiKey.key)).1 =
      Except.error PrgptError.EmptyResponseError := by
    rw [generateFC_fst w.net d ((loadConfig w.configEnv).1.apiKey.key) resp hnet, hch]
  refine ⟨hg, ?_⟩
  unfold mainRun
  rw [if_neg hurl, pipelineRun_ok_diff w ((loadConfig w.configEnv).1) d hdiff, hg]
  rfl

/-- C5 witness on a concrete world whose network answers an empty choice
list. -/
theorem c5_witness :
    (mainRun worldC5).stdout =
      "Error generating final consideration: no response received from OpenAI API\n" :=
  (c5_empty_choices worldC5 "DIFF" respEmpty (by decide) rfl rfl rfl).2

/-- C6: a failing diff command (non-zero exit or not startable) makes the
fetcher fail with DiffFetchError wrapping the process error, and the run
records only the process spawn: no network call is attempted. -/
theorem c6_diff_command_failure (w : World) (m : String)
    (h7 : 7 ≤ (goSplit w.prURL '/').length)
    (hrun : w.runCmd (invokedCmd w.prURL) = Except.error m) :
    (getPRDiff w.runCmd w.prURL).1 = Except.error (PrgptError.DiffFetchError m) ∧
    (mainRun w).events = [Event.procCall (invokedCmd w.prURL)] ∧
    (mainRun w).stdout = "Error fetching PR diff: error running gh pr diff: " ++ m ++ "\n" := by
  have hurl := url_ne_empty_of_seven h7
  have hg : getPRDiff w.runCmd w.prURL =
      (Except.error (PrgptError.DiffFetchError m), [Event.procCall (invokedCmd w.prURL)]) := by
    rw [getPRDiff_of_ge w.runCmd w.prURL h7, hrun]
  have hm : mainRun w =
      { stdout := "Error fetching PR diff: error running gh pr diff: " ++ m ++ "\n"
        exitCode := 0
        events := [Event.procCall (invokedCmd w.prURL)] } := by
    unfold mainRun
    rw [if_neg hurl]
    unfold pipelineRun
    rw [hg]
    rfl
  exact ⟨by rw [hg], by rw [hm], by rw [hm]⟩

/-- C6 witness on a concrete world whose diff command fails with exit
status 1. -/
theorem c6_witness :
    (getPRDiff worldC6.runCmd worldC6.prURL).1 =
      Except.error (PrgptError.DiffFetchError "exit status 1") ∧
    (mainRun worldC6).events = [Event.procCall (invokedCmd worldC6.prURL)] ∧
    (mainRun worldC6).stdout = "Error fetching PR diff: error running gh pr diff: exit status 1\n" :=
  c6_diff_command_failure worldC6 "exit status 1" (by decide) rfl

/-- C7: when configuration loading fails the run does not abort: the loaded
value is the zero configuration with an empty API key, the error component
is never consulted, and with a nonempty -pr value the run is exactly the
pipeline run over the zero configuration. -/
theorem c7_config_error_ignored (w : World)
    (hurl : w.prURL ≠ "")
    (hfail : (loadConfig w.configEnv).2.isSome = true) :
    (loadConfig w.configEnv).1 = FileConfig.zero ∧
    mainRun w = pipelineRun w FileConfig.zero := by
  have h1 : (loadConfig w.configEnv).1 = FileConfig.zero := by
    rcases hh : w.configEnv.currentUserHome with e | homeDir
    · simp only [loadConfig, hh]
    · rcases hf : w.configEnv.openFile (homeDir ++ CONFIG_FOLDER ++ FILENAME) with e | contents
      · simp only [loadConfig, hh, hf]
      · rcases hd : w.configEnv.tomlDecode contents with e | cfg
        · simp only [loadConfig, hh, hf, hd]
        · exfalso
          rw [show loadConfig w.configEnv = (cfg, none) from by
            simp only [loadConfig, hh, hf, hd]] at hfail
          simp at hfail
  refine ⟨h1, ?_⟩
  unfold mainRun
  rw [if_neg hurl, h1]

/-- C7 witness on a concrete world whose user lookup fails while the rest of
the pipeline succeeds. -/
theorem c7_witness :
    (loadConfig worldC7.configEnv).1 = FileConfig.zero ∧
    mainRun worldC7 = pipelineRun worldC7 FileConfig.zero :=
  c7_config_error_ignored worldC7 (by decide) rfl

/-- C8 counterexample: a concrete run in which configuration loading fails
with a ConfigError, yet the run prints no error message at all, is not
terminated, and proceeds to the process spawn and the network call; so
ConfigError, one of the kinds the claim covers, is neither terminal nor
surfaced by a printed message. -/
theorem c8_counterexample :
    (loadConfig worldC8.configEnv).2 =
      some (PrgptError.ConfigError "Error getting current user") ∧
    (mainRun worldC8).stdout = "LGTM\nApproved: true\n" ∧
    (mainRun worldC8).events.length = 2 :=
  ⟨rfl, rfl, rfl⟩

/-- C8 amended: every run exits with code 0, and every PIPELINE failure kind
(the ones reachable through the fetcher or the generator: InvalidURLError,
DiffFetchError, RequestError, ResponseReadError, DeserializationError,
EmptyResponseError, and the serialization kind) is terminal and surfaced as
a one-line context-prefixed message on standard output; ConfigError alone is
exempt: it is silently discarded and the run proceeds. -/
theorem c8_error_reporting (w : World) :
    (mainRun w).exitCode = 0 ∧
    (∀ e, w.prURL ≠ "" → (getPRDiff w.runCmd w.prURL).1 = Except.error e →
      mainRun w =
        { stdout := "Error fetching PR diff: " ++ e.toMessage ++ "\n"
          exitCode := 0
          events := (getPRDiff w.runCmd w.prURL).2 }) ∧
    (∀ d e, w.prURL ≠ "" → (getPRDiff w.runCmd w.prURL).1 = Except.ok d →
      (generateFinalConsideration w.net d ((loadConfig w.configEnv).1.apiKey.key)).1 =
        Except.error e →
      mainRun w =
        { stdout := "Error generating final consideration: " ++ e.toMessage ++ "\n"
          exitCode := 0
          events := (getPRDiff w.runCmd w.prURL).2 ++
            (generateFinalConsideration w.net d ((loadConfig w.configEnv).1.apiKey.key)).2 }) := by
  refine ⟨?_, ?_, ?_⟩
  · unfold mainRun pipelineRun
    split
    · rfl
    · split
      · rfl
      · split <;> rfl
  · intro e hurl herr
    unfold mainRun
    rw [if_neg hurl]
    unfold pipelineRun
    rw [herr]
  · intro d e hurl hok herr
    unfold mainRun
    rw [if_neg hurl, pipelineRun_ok_diff w ((loadConfig w.configEnv).1) d hok, herr]

/-- C8 amended witness: on a world with a malformed URL the run exits with
code 0 and prints exactly the context-prefixed InvalidURLError line. -/
theorem c8_witness :
    (mainRun worldC8b).exitCode = 0 ∧
    (mainRun worldC8b).stdout = "Error fetching PR diff: invalid PR URL\n" :=
  ⟨(c8_error_reporting worldC8b).1,
   by rw [(c8_error_reporting worldC8b).2.1 PrgptError.InvalidURLError (by decide) rfl]; rfl⟩

end Prgpt
